import Mathlib

/-!
# Verification of the MonitoRSS refresh-scheduling / fetch-cache / delivery core

Shallow embedding of three services of the repository:

* `ScheduleHandlerService` (refresh scheduling, batching, entitlement sync)
* `FeedFetcherService` (fetch / decode / cache / persist pipeline)
* `DiscordMediumService` (article delivery dispatch)

Stateful code is embedded as pure functions over explicit environments that
record the outcome of every external call (fetch result, cache-store and
object-store failures, producer behaviour), returning both the computed value
and a trace of the side effects performed.
-/

namespace MonitoRSS

/-! ## ScheduleHandlerService: batching loop of `handleRefreshRate`

The source streams the distinct-URL cursor, skips falsy ids, accumulates a
batch, dispatches at length 25, and flushes the final partial batch. We embed
the whole method as an event trace: the awaited steps before the cursor is
opened, then one `dispatchBatch` event per `urlsHandler` invocation. -/

/-- An element of a dispatched URL batch: `{ url, saveToObjectStorage }`. -/
structure UrlBatchItem where
  url : String
  saveToObjectStorage : Bool
deriving Repr, DecidableEq

/-- Events emitted by `handleRefreshRate`, in the order the source awaits them. -/
inductive SchedulerEvent where
  /-- `supportersService.getBenefitsOfAllDiscordUsers()` resolved. -/
  | getBenefits
  /-- `await this.syncRefreshRates(allBenefits)` completed. -/
  | syncRefreshRatesDone
  /-- `await this.syncMaxDailyArticles(allBenefits)` completed. -/
  | syncMaxDailyArticlesDone
  /-- the `find({ debug: true })` query for debug feeds resolved. -/
  | findDebugFeeds
  /-- `.cursor()` was called on the distinct-URL aggregate query. -/
  | openUrlsCursor
  /-- `await urlsHandler(urlBatch)` was invoked with this batch. -/
  | dispatchBatch (batch : List UrlBatchItem)
deriving Repr, DecidableEq

/-- The `for await (const { _id: url } of urlsCursor)` loop of
`handleRefreshRate` (source lines 92–108): a cursor item with a falsy `_id`
(`undefined`/`null` modelled as `none`, the empty string as `some ""`) is
skipped; otherwise the item is pushed onto the batch; at length 25 the batch
is dispatched and reset; a non-empty final batch is flushed at end of
stream. -/
def handleRefreshRateLoop (urlsToDebug : List String) :
    List (Option String) → List UrlBatchItem → List SchedulerEvent
  | [], urlBatch =>
      if urlBatch.length > 0 then [SchedulerEvent.dispatchBatch urlBatch] else []
  | none :: rest, urlBatch => handleRefreshRateLoop urlsToDebug rest urlBatch
  | some url :: rest, urlBatch =>
      if url = "" then
        handleRefreshRateLoop urlsToDebug rest urlBatch
      else if (urlBatch ++ [UrlBatchItem.mk url (urlsToDebug.contains url)]).length = 25 then
        SchedulerEvent.dispatchBatch (urlBatch ++ [UrlBatchItem.mk url (urlsToDebug.contains url)]) ::
          handleRefreshRateLoop urlsToDebug rest []
      else
        handleRefreshRateLoop urlsToDebug rest
          (urlBatch ++ [UrlBatchItem.mk url (urlsToDebug.contains url)])

/-- `handleRefreshRate` as an event trace. The source awaits, in order: the
benefits snapshot, `syncRefreshRates`, `syncMaxDailyArticles`, the debug-feed
query, then opens the cursor and runs the batching loop with an empty
batch. -/
def handleRefreshRateEvents (urlsToDebug : List String)
    (cursorItems : List (Option String)) : List SchedulerEvent :=
  SchedulerEvent.getBenefits ::
  SchedulerEvent.syncRefreshRatesDone ::
  SchedulerEvent.syncMaxDailyArticlesDone ::
  SchedulerEvent.findDebugFeeds ::
  SchedulerEvent.openUrlsCursor ::
  handleRefreshRateLoop urlsToDebug cursorItems []

/-- The batches handed to `urlsHandler` during a full `handleRefreshRate`
call, in dispatch order. -/
def dispatchedBatches (urlsToDebug : List String)
    (cursorItems : List (Option String)) : List (List UrlBatchItem) :=
  (handleRefreshRateEvents urlsToDebug cursorItems).filterMap fun e =>
    match e with
    | SchedulerEvent.dispatchBatch b => some b
    | _ => none

/-- The batch item built for a URL: the debug set decides durable storage. -/
def toUrlItem (urlsToDebug : List String) (u : String) : UrlBatchItem :=
  ⟨u, urlsToDebug.contains u⟩

/-- Recursive restatement of the batching loop that returns the dispatched
batches themselves; the bridge to `handleRefreshRateLoop` is
`handleRefreshRateLoop_eq`. -/
def loopBatchesRec (urlsToDebug : List String) :
    List (Option String) → List UrlBatchItem → List (List UrlBatchItem)
  | [], urlBatch => if urlBatch.length > 0 then [urlBatch] else []
  | none :: rest, urlBatch => loopBatchesRec urlsToDebug rest urlBatch
  | some url :: rest, urlBatch =>
      if url = "" then
        loopBatchesRec urlsToDebug rest urlBatch
      else if urlBatch.length + 1 = 25 then
        (urlBatch ++ [toUrlItem urlsToDebug url]) :: loopBatchesRec urlsToDebug rest []
      else
        loopBatchesRec urlsToDebug rest (urlBatch ++ [toUrlItem urlsToDebug url])

theorem handleRefreshRateLoop_eq (dbg : List String) :
    ∀ (cursor : List (Option String)) (acc : List UrlBatchItem),
      handleRefreshRateLoop dbg cursor acc =
        (loopBatchesRec dbg cursor acc).map SchedulerEvent.dispatchBatch
  | [], acc => by
      simp only [handleRefreshRateLoop, loopBatchesRec]
      split <;> simp
  | none :: rest, acc => handleRefreshRateLoop_eq dbg rest acc
  | some url :: rest, acc => by
      simp only [handleRefreshRateLoop, loopBatchesRec, toUrlItem]
      by_cases hu : url = ""
      · rw [if_pos hu, if_pos hu]
        exact handleRefreshRateLoop_eq dbg rest acc
      · rw [if_neg hu, if_neg hu]
        by_cases h25 : acc.length + 1 = 25
        · rw [if_pos (by simp [h25]), if_pos h25, List.map_cons]
          exact congrArg _ (handleRefreshRateLoop_eq dbg rest [])
        · rw [if_neg (by simp [h25]), if_neg h25]
          exact handleRefreshRateLoop_eq dbg rest _

theorem dispatchedBatches_eq (dbg : List String) (cursor : List (Option String)) :
    dispatchedBatches dbg cursor = loopBatchesRec dbg cursor [] := by
  simp only [dispatchedBatches, handleRefreshRateEvents, handleRefreshRateLoop_eq]
  simp only [List.filterMap_cons, List.filterMap_map]
  have hcomp : ((fun e : SchedulerEvent =>
      match e with
      | SchedulerEvent.dispatchBatch b => some b
      | _ => none) ∘ SchedulerEvent.dispatchBatch) = Option.some := by
    funext b; rfl
  rw [hcomp, List.filterMap_some]

theorem loopBatchesRec_flatten (dbg : List String) :
    ∀ (urls : List String), (∀ u ∈ urls, u ≠ "") →
      ∀ (acc : List UrlBatchItem), acc.length < 25 →
        (loopBatchesRec dbg (urls.map some) acc).flatten =
          acc ++ urls.map (toUrlItem dbg)
  | [], _, acc, _ => by
      simp only [List.map_nil, loopBatchesRec]
      by_cases h : acc.length > 0
      · simp [h]
      · have hnil : acc = [] := List.eq_nil_of_length_eq_zero (by omega)
        simp [h, hnil]
  | u :: rest, h, acc, hacc => by
      have hu : u ≠ "" := h u (by simp)
      have hrest : ∀ x ∈ rest, x ≠ "" := fun x hx => h x (by simp [hx])
      simp only [List.map_cons, loopBatchesRec]
      rw [if_neg hu]
      by_cases h25 : acc.length + 1 = 25
      · rw [if_pos h25, List.flatten_cons,
          loopBatchesRec_flatten dbg rest hrest [] (by simp)]
        simp
      · rw [if_neg h25,
          loopBatchesRec_flatten dbg rest hrest (acc ++ [toUrlItem dbg u])
            (by simp; omega)]
        simp

theorem loopBatchesRec_sizes (dbg : List String) :
    ∀ (urls : List String), (∀ u ∈ urls, u ≠ "") →
      ∀ (acc : List UrlBatchItem), acc.length < 25 →
        ∀ b ∈ loopBatchesRec dbg (urls.map some) acc,
          0 < b.length ∧ b.length ≤ 25
  | [], _, acc, hacc, b, hb => by
      simp only [List.map_nil, loopBatchesRec] at hb
      by_cases h : acc.length > 0 <;> simp [h] at hb
      subst hb; omega
  | u :: rest, h, acc, hacc, b, hb => by
      have hu : u ≠ "" := h u (by simp)
      have hrest : ∀ x ∈ rest, x ≠ "" := fun x hx => h x (by simp [hx])
      simp only [List.map_cons, loopBatchesRec] at hb
      rw [if_neg hu] at hb
      by_cases h25 : acc.length + 1 = 25
      · rw [if_pos h25] at hb
        rcases List.mem_cons.mp hb with rfl | hb
        · simp; omega
        · exact loopBatchesRec_sizes dbg rest hrest [] (by simp) b hb
      · rw [if_neg h25] at hb
        exact loopBatchesRec_sizes dbg rest hrest (acc ++ [toUrlItem dbg u])
          (by simp; omega) b hb

theorem loopBatchesRec_full (dbg : List String) :
    ∀ (urls : List String), (∀ u ∈ urls, u ≠ "") →
      ∀ (acc : List UrlBatchItem), acc.length < 25 →
        ∀ i, i + 1 < (loopBatchesRec dbg (urls.map some) acc).length →
          ((loopBatchesRec dbg (urls.map some) acc).getD i []).length = 25
  | [], _, acc, hacc, i, hi => by
      simp only [List.map_nil, loopBatchesRec] at hi
      by_cases h : acc.length > 0 <;> simp [h] at hi
  | u :: rest, h, acc, hacc, i, hi => by
      have hu : u ≠ "" := h u (by simp)
      have hrest : ∀ x ∈ rest, x ≠ "" := fun x hx => h x (by simp [hx])
      simp only [List.map_cons, loopBatchesRec] at hi ⊢
      rw [if_neg hu] at hi ⊢
      by_cases h25 : acc.length + 1 = 25
      · rw [if_pos h25] at hi ⊢
        match i with
        | 0 =>
          simp only [List.getD_cons_zero, List.length_append, List.length_cons,
            List.length_nil]
          omega
        | i + 1 =>
          rw [List.getD_cons_succ]
          exact loopBatchesRec_full dbg rest hrest [] (by simp) i
            (by simpa using hi)
      · rw [if_neg h25] at hi ⊢
        exact loopBatchesRec_full dbg rest hrest (acc ++ [toUrlItem dbg u])
          (by simp; omega) i hi

theorem loopBatchesRec_count (dbg : List String) :
    ∀ (urls : List String), (∀ u ∈ urls, u ≠ "") →
      ∀ (acc : List UrlBatchItem), acc.length < 25 →
        (loopBatchesRec dbg (urls.map some) acc).length =
          (acc.length + urls.length + 24) / 25
  | [], _, acc, hacc => by
      simp only [List.map_nil, loopBatchesRec]
      by_cases h : acc.length > 0 <;> simp [h] <;> omega
  | u :: rest, h, acc, hacc => by
      have hu : u ≠ "" := h u (by simp)
      have hrest : ∀ x ∈ rest, x ≠ "" := fun x hx => h x (by simp [hx])
      simp only [List.map_cons, loopBatchesRec]
      rw [if_neg hu]
      by_cases h25 : acc.length + 1 = 25
      · rw [if_pos h25, List.length_cons,
          loopBatchesRec_count dbg rest hrest [] (by simp)]
        simp only [List.length_nil, List.length_cons]
        omega
      · rw [if_neg h25,
          loopBatchesRec_count dbg rest hrest (acc ++ [toUrlItem dbg u])
            (by simp; omega)]
        simp only [List.length_append, List.length_cons, List.length_nil]
        omega

/-- C1: for every cursor stream of due URLs, `handleRefreshRate` accumulates
URLs in order into batches of capacity 25, dispatching each full batch upon
reaching 25 and flushing the final partial batch if and only if it is
non-empty: the dispatched batches concatenate to the stream in cursor order,
every batch is non-empty with at most 25 items, every batch except the last
has exactly 25 items, the number of dispatch calls is `⌈n/25⌉`, and a stream
of 30 URLs yields exactly 2 calls of sizes 25 and 5. -/
theorem handleRefreshRate_batching (dbg : List String) (urls : List String)
    (h : ∀ u ∈ urls, u ≠ "") :
    (dispatchedBatches dbg (urls.map some)).flatten = urls.map (toUrlItem dbg)
    ∧ (∀ b ∈ dispatchedBatches dbg (urls.map some), 0 < b.length ∧ b.length ≤ 25)
    ∧ (∀ i, i + 1 < (dispatchedBatches dbg (urls.map some)).length →
        ((dispatchedBatches dbg (urls.map some)).getD i []).length = 25)
    ∧ (dispatchedBatches dbg (urls.map some)).length = (urls.length + 24) / 25
    ∧ (urls.length = 30 →
        (dispatchedBatches dbg (urls.map some)).map List.length = [25, 5]) := by
  rw [dispatchedBatches_eq]
  refine ⟨?_, ?_, ?_, ?_, ?_⟩
  · simpa using loopBatchesRec_flatten dbg urls h [] (by simp)
  · exact loopBatchesRec_sizes dbg urls h [] (by simp)
  · exact loopBatchesRec_full dbg urls h [] (by simp)
  · simpa using loopBatchesRec_count dbg urls h [] (by simp)
  · intro h30
    have hc : (loopBatchesRec dbg (urls.map some) []).length = 2 := by
      rw [loopBatchesRec_count dbg urls h [] (by simp), h30]
      rfl
    obtain ⟨b0, b1, hB⟩ := List.length_eq_two.mp hc
    have h0 : b0.length = 25 := by
      have := loopBatchesRec_full dbg urls h [] (by simp) 0 (by rw [hB]; simp)
      rw [hB] at this
      simpa using this
    have hlen : b0.length + b1.length = 30 := by
      have := congrArg List.length (loopBatchesRec_flatten dbg urls h [] (by simp))
      rw [hB] at this
      simpa [h30] using this
    rw [hB]
    simp only [List.map_cons, List.map_nil, h0]
    have : b1.length = 5 := by omega
    rw [this]

/-- C1 witness: a concrete stream of 30 URLs produces exactly two dispatch
calls, of sizes 25 and 5. -/
theorem handleRefreshRate_batching_witness :
    (∀ u ∈ (List.range 30).map (fun i => "u" ++ toString i), u ≠ "")
    ∧ (dispatchedBatches []
        (((List.range 30).map (fun i => "u" ++ toString i)).map some)).map
          List.length = [25, 5] :=
  ⟨by decide, (handleRefreshRate_batching [] _ (by decide)).2.2.2.2 (by simp)⟩

/-- C8: in every execution of `handleRefreshRate`, the entitlement sync steps
(`syncRefreshRates` then `syncMaxDailyArticles`, both over the full benefits
snapshot) complete before the distinct-URL cursor is opened: the event trace
is exactly the five awaited setup steps, in order, followed only by batch
dispatches. -/
theorem handleRefreshRate_sync_before_cursor (dbg : List String)
    (cursor : List (Option String)) :
    ∃ batches : List (List UrlBatchItem),
      handleRefreshRateEvents dbg cursor =
        [SchedulerEvent.getBenefits, SchedulerEvent.syncRefreshRatesDone,
          SchedulerEvent.syncMaxDailyArticlesDone, SchedulerEvent.findDebugFeeds,
          SchedulerEvent.openUrlsCursor]
        ++ batches.map SchedulerEvent.dispatchBatch :=
  ⟨loopBatchesRec dbg cursor [], by
    simp [handleRefreshRateEvents, handleRefreshRateLoop_eq]⟩

/-! ## ScheduleHandlerService.syncRefreshRates (source lines 142–205)

The store is the collection of `UserFeed` documents; each `updateMany` is a
bulk update returning the number of matched documents. Only the fields the
method reads or writes (`user.discordUserId`, `refreshRateSeconds`) are
modelled. The per-group updates run under `Promise.all` in the source; as
each group's filter touches only feeds of that group's user ids, the updates
commute for well-formed snapshots and are embedded as a sequential fold in
group insertion order. `specialDiscordUserIds` is accumulated by pushing each
group's ids, i.e. it is the concatenation of all group id lists. -/

/-- One entry of `supportersService.getBenefitsOfAllDiscordUsers()`. -/
structure DiscordUserBenefits where
  discordUserId : String
  isSupporter : Bool
  refreshRateSeconds : Nat
  maxDailyArticles : Nat
deriving Repr, DecidableEq

/-- A stored `UserFeed` document, restricted to the fields `syncRefreshRates`
touches. -/
structure UserFeedDoc where
  discordUserId : String
  refreshRateSeconds : Nat
deriving Repr, DecidableEq

/-- `userFeedModel.updateMany(filter, { $set: { refreshRateSeconds: rate } })`:
every matched document gets the new rate; the matched count is returned. -/
def updateManyRefreshRate (store : List UserFeedDoc)
    (pred : UserFeedDoc → Bool) (rate : Nat) : List UserFeedDoc × Nat :=
  (store.map fun d => if pred d then { d with refreshRateSeconds := rate } else d,
   (store.filter pred).length)

/-- One `Map.set` step of building `supportersByRefreshRates`: JS `Map`
preserves insertion order and `push` appends to the existing id list. -/
def insertGroup (acc : List (Nat × List String)) (rate : Nat) (uid : String) :
    List (Nat × List String) :=
  match acc with
  | [] => [(rate, [uid])]
  | (r, ids) :: rest =>
      if r = rate then (r, ids ++ [uid]) :: rest
      else (r, ids) :: insertGroup rest rate uid

/-- The `supportersByRefreshRates` map of `syncRefreshRates`, as an
insertion-ordered association list from refresh rate to discord user ids. -/
def groupByRefreshRate (validSupporters : List DiscordUserBenefits) :
    List (Nat × List String) :=
  validSupporters.foldl
    (fun acc s => insertGroup acc s.refreshRateSeconds s.discordUserId) []

/-- All user ids appearing in any group, in group order. -/
def groupIds (groups : List (Nat × List String)) : List String :=
  groups.flatMap Prod.snd

/-- The filter of one per-group `updateMany`:
`user.discordUserId ∈ discordUserIds` and `refreshRateSeconds ≠ rate`. -/
def groupUpdatePred (g : Nat × List String) (d : UserFeedDoc) : Bool :=
  g.2.contains d.discordUserId && d.refreshRateSeconds != g.1

/-- One step of the per-group bulk-update pass, threading the store and the
list of matched counts. -/
def groupPassStep (p : List UserFeedDoc × List Nat) (g : Nat × List String) :
    List UserFeedDoc × List Nat :=
  ((updateManyRefreshRate p.1 (groupUpdatePred g) g.1).1,
   p.2 ++ [(updateManyRefreshRate p.1 (groupUpdatePred g) g.1).2])

/-- `ScheduleHandlerService.syncRefreshRates`: filters the snapshot to
supporters, groups them by refresh rate, bulk-updates each group's feeds that
carry a different rate, then resets every feed of a user in no group whose
rate differs from the process-wide default. Returns the updated store and the
matched count of every bulk update, in issue order. -/
def syncRefreshRates (defaultRefreshRateSeconds : Nat)
    (benefits : List DiscordUserBenefits) (store : List UserFeedDoc) :
    List UserFeedDoc × List Nat :=
  let validSupporters := benefits.filter (·.isSupporter)
  let groups := groupByRefreshRate validSupporters
  let pass1 := groups.foldl groupPassStep (store, [])
  let specialDiscordUserIds := groupIds groups
  let final := updateManyRefreshRate pass1.1
    (fun d => !specialDiscordUserIds.contains d.discordUserId &&
        d.refreshRateSeconds != defaultRefreshRateSeconds)
    defaultRefreshRateSeconds
  (final.1, pass1.2 ++ [final.2])

/-- The refresh rate of the first group containing a user id, if any. -/
def lookupGroupRate (groups : List (Nat × List String)) (uid : String) :
    Option Nat :=
  (groups.find? (fun g => g.2.contains uid)).map Prod.fst

/-- The effect of one group's bulk update on a single document. -/
def applyGroup (g : Nat × List String) (d : UserFeedDoc) : UserFeedDoc :=
  if groupUpdatePred g d then { d with refreshRateSeconds := g.1 } else d

/-- The effect of the whole per-group pass on a single document. -/
def applyGroupsTo (groups : List (Nat × List String)) (d : UserFeedDoc) :
    UserFeedDoc :=
  groups.foldl (fun d g => applyGroup g d) d

theorem groupPass_fst :
    ∀ (groups : List (Nat × List String)) (store : List UserFeedDoc)
      (cs : List Nat),
      (groups.foldl groupPassStep (store, cs)).1 =
        store.map (applyGroupsTo groups)
  | [], store, cs => by
      show store = store.map (fun d => d)
      simp
  | g :: gs, store, cs => by
      rw [List.foldl_cons]
      have step1 : groupPassStep (store, cs) g =
          (store.map (applyGroup g),
           cs ++ [(store.filter (groupUpdatePred g)).length]) := rfl
      rw [step1, groupPass_fst gs _ _, List.map_map]
      rfl

theorem groupPass_counts_length :
    ∀ (groups : List (Nat × List String)) (store : List UserFeedDoc)
      (cs : List Nat),
      (groups.foldl groupPassStep (store, cs)).2.length =
        cs.length + groups.length
  | [], store, cs => by simp
  | g :: gs, store, cs => by
      rw [List.foldl_cons]
      have step1 : groupPassStep (store, cs) g =
          (store.map (applyGroup g),
           cs ++ [(store.filter (groupUpdatePred g)).length]) := rfl
      rw [step1, groupPass_counts_length gs _ _]
      simp
      omega

theorem applyGroupsTo_not_mem :
    ∀ (groups : List (Nat × List String)) (d : UserFeedDoc),
      d.discordUserId ∉ groupIds groups → applyGroupsTo groups d = d
  | [], d, _ => rfl
  | (r, ids) :: gs, d, h => by
      have hids : d.discordUserId ∉ ids := fun hc =>
        h (by simp [groupIds]; exact Or.inl hc)
      have hgs : d.discordUserId ∉ groupIds gs := fun hc =>
        h (by simp [groupIds] at hc ⊢; exact Or.inr hc)
      have happ : applyGroup (r, ids) d = d := by
        simp [applyGroup, groupUpdatePred, hids]
      show applyGroupsTo gs (applyGroup (r, ids) d) = d
      rw [happ]
      exact applyGroupsTo_not_mem gs d hgs

theorem lookupGroupRate_isSome_iff :
    ∀ (groups : List (Nat × List String)) (uid : String),
      (lookupGroupRate groups uid).isSome ↔ uid ∈ groupIds groups
  | [], uid => by simp [lookupGroupRate, groupIds]
  | (r, ids) :: gs, uid => by
      by_cases hc : uid ∈ ids
      · simp [lookupGroupRate, List.find?_cons, hc, groupIds]
      · have := lookupGroupRate_isSome_iff gs uid
        simp only [lookupGroupRate, groupIds] at this ⊢
        simp [List.find?_cons, hc, this]

theorem lookupGroupRate_of_mem :
    ∀ (groups : List (Nat × List String)),
      (groupIds groups).Nodup →
      ∀ g ∈ groups, ∀ uid ∈ g.2, lookupGroupRate groups uid = some g.1
  | [], _, g, hg, _, _ => absurd hg (List.not_mem_nil g)
  | (r, ids) :: gs, hnd, g, hg, uid, hu => by
      have hnd' := (List.nodup_append.mp (by simpa [groupIds] using hnd))
      by_cases hc : uid ∈ ids
      · have hfind : lookupGroupRate ((r, ids) :: gs) uid = some r := by
          simp [lookupGroupRate, List.find?_cons, hc]
        rcases List.mem_cons.mp hg with rfl | hg'
        · exact hfind
        · exfalso
          have : uid ∈ groupIds gs :=
            List.mem_flatMap.mpr ⟨g, hg', hu⟩
          exact hnd'.2.2 hc this
      · have hg' : g ∈ gs := by
          rcases List.mem_cons.mp hg with rfl | hg'
          · exact absurd hu hc
          · exact hg'
        have : lookupGroupRate ((r, ids) :: gs) uid = lookupGroupRate gs uid := by
          simp [lookupGroupRate, List.find?_cons, hc]
        rw [this]
        exact lookupGroupRate_of_mem gs hnd'.2.1 g hg' uid hu

theorem applyGroupsTo_eq :
    ∀ (groups : List (Nat × List String)), (groupIds groups).Nodup →
      ∀ (d : UserFeedDoc),
        applyGroupsTo groups d =
          { d with refreshRateSeconds :=
              (lookupGroupRate groups d.discordUserId).getD d.refreshRateSeconds }
  | [], _, d => by simp [applyGroupsTo, lookupGroupRate]
  | (r, ids) :: gs, hnd, d => by
      have hnd' := (List.nodup_append.mp (by simpa [groupIds] using hnd))
      by_cases hc : d.discordUserId ∈ ids
      · have happ : applyGroup (r, ids) d = { d with refreshRateSeconds := r } := by
          by_cases hr : d.refreshRateSeconds = r
          · obtain ⟨uid, rate⟩ := d
            simp only at hr
            subst hr
            simp [applyGroup, groupUpdatePred, hc]
          · simp [applyGroup, groupUpdatePred, hc, hr]
        have hnot : ({ d with refreshRateSeconds := r } :
            UserFeedDoc).discordUserId ∉ groupIds gs := hnd'.2.2 hc
        show applyGroupsTo gs (applyGroup (r, ids) d) = _
        rw [happ, applyGroupsTo_not_mem gs _ hnot]
        simp [lookupGroupRate, List.find?_cons, hc]
      · have happ : applyGroup (r, ids) d = d := by
          simp [applyGroup, groupUpdatePred, hc]
        have hlk : lookupGroupRate ((r, ids) :: gs) d.discordUserId =
            lookupGroupRate gs d.discordUserId := by
          simp [lookupGroupRate, List.find?_cons, hc]
        show applyGroupsTo gs (applyGroup (r, ids) d) = _
        rw [happ, hlk]
        exact applyGroupsTo_eq gs hnd'.2.1 d

theorem updateMany_noop (st : List UserFeedDoc) (pred : UserFeedDoc → Bool)
    (rate : Nat) (h : ∀ d ∈ st, pred d = false) :
    updateManyRefreshRate st pred rate = (st, 0) := by
  unfold updateManyRefreshRate
  have h2 : st.filter pred = [] :=
    List.filter_eq_nil_iff.mpr (fun d hd => by simp [h d hd])
  rw [h2]
  have h1 : ∀ d ∈ st,
      (if pred d then { d with refreshRateSeconds := rate } else d) = id d :=
    fun d hd => by simp [h d hd]
  rw [List.map_congr_left h1, List.map_id]
  rfl

theorem groupPass_noop :
    ∀ (gs : List (Nat × List String)) (st : List UserFeedDoc) (cs : List Nat),
      (∀ g ∈ gs, ∀ d ∈ st, groupUpdatePred g d = false) →
      gs.foldl groupPassStep (st, cs) = (st, cs ++ List.replicate gs.length 0)
  | [], st, cs, _ => by simp
  | g :: gs, st, cs, h => by
      rw [List.foldl_cons]
      have hg := h g (by simp)
      have step1 : groupPassStep (st, cs) g = (st, cs ++ [0]) := by
        have := updateMany_noop st (groupUpdatePred g) g.1 hg
        simp [groupPassStep, this]
      rw [step1, groupPass_noop gs st (cs ++ [0])
        (fun g' hg' d hd => h g' (by simp [hg']) d hd)]
      simp [List.replicate_succ]

theorem insertGroup_ids_perm :
    ∀ (acc : List (Nat × List String)) (rate : Nat) (uid : String),
      (groupIds (insertGroup acc rate uid)).Perm (uid :: groupIds acc)
  | [], rate, uid => by simp [insertGroup, groupIds]
  | (r, ids) :: rest, rate, uid => by
      by_cases h : r = rate
      · have heq : insertGroup ((r, ids) :: rest) rate uid =
            (r, ids ++ [uid]) :: rest := by
          simp [insertGroup, h]
        rw [heq]
        simp only [groupIds, List.flatMap_cons]
        have hre : (ids ++ [uid]) ++ rest.flatMap Prod.snd =
            ids ++ uid :: rest.flatMap Prod.snd := by simp
        rw [hre]
        exact List.perm_middle
      · have heq : insertGroup ((r, ids) :: rest) rate uid =
            (r, ids) :: insertGroup rest rate uid := by
          simp [insertGroup, h]
        rw [heq]
        simp only [groupIds, List.flatMap_cons]
        have ih := insertGroup_ids_perm rest rate uid
        simp only [groupIds] at ih
        exact (ih.append_left ids).trans List.perm_middle

theorem foldl_insert_ids_perm :
    ∀ (l : List DiscordUserBenefits) (acc : List (Nat × List String)),
      (groupIds (l.foldl
        (fun a s => insertGroup a s.refreshRateSeconds s.discordUserId) acc)).Perm
        (l.map (·.discordUserId) ++ groupIds acc)
  | [], acc => by simp
  | s :: rest, acc => by
      rw [List.foldl_cons, List.map_cons, List.cons_append]
      exact (foldl_insert_ids_perm rest _).trans
        ((((insertGroup_ids_perm acc s.refreshRateSeconds
              s.discordUserId)).append_left _).trans List.perm_middle)

theorem groupIds_perm (l : List DiscordUserBenefits) :
    (groupIds (groupByRefreshRate l)).Perm (l.map (·.discordUserId)) := by
  have := foldl_insert_ids_perm l []
  simpa [groupByRefreshRate, groupIds] using this

theorem insertGroup_mem_self :
    ∀ (acc : List (Nat × List String)) (rate : Nat) (uid : String),
      ∃ g ∈ insertGroup acc rate uid, uid ∈ g.2 ∧ g.1 = rate
  | [], rate, uid => ⟨(rate, [uid]), by simp [insertGroup]⟩
  | (r, ids) :: rest, rate, uid => by
      by_cases h : r = rate
      · exact ⟨(r, ids ++ [uid]), by simp [insertGroup, h]⟩
      · obtain ⟨g, hg, hm, hr⟩ := insertGroup_mem_self rest rate uid
        exact ⟨g, by simp [insertGroup, h, hg], hm, hr⟩

theorem insertGroup_mem_preserve :
    ∀ (acc : List (Nat × List String)) (rate : Nat) (uid : String)
      (uid' : String) (r' : Nat),
      (∃ g ∈ acc, uid' ∈ g.2 ∧ g.1 = r') →
      ∃ g ∈ insertGroup acc rate uid, uid' ∈ g.2 ∧ g.1 = r'
  | [], _, _, _, _, h => by simp at h
  | (r, ids) :: rest, rate, uid, uid', r', h => by
      obtain ⟨g, hg, hm, hr⟩ := h
      rcases List.mem_cons.mp hg with rfl | hg'
      · by_cases hrr : r = rate
        · exact ⟨(r, ids ++ [uid]), by simp [insertGroup, hrr],
            by simp at hm ⊢; exact Or.inl hm, hr⟩
        · exact ⟨(r, ids), by simp [insertGroup, hrr], hm, hr⟩
      · by_cases hrr : r = rate
        · exact ⟨g, by simp [insertGroup, hrr, hg'], hm, hr⟩
        · obtain ⟨g2, hg2, hm2, hr2⟩ :=
            insertGroup_mem_preserve rest rate uid uid' r' ⟨g, hg', hm, hr⟩
          exact ⟨g2, by simp [insertGroup, hrr, hg2], hm2, hr2⟩

theorem foldl_insert_preserve :
    ∀ (l : List DiscordUserBenefits) (acc : List (Nat × List String))
      (uid : String) (r : Nat),
      (∃ g ∈ acc, uid ∈ g.2 ∧ g.1 = r) →
      ∃ g ∈ l.foldl
          (fun a s => insertGroup a s.refreshRateSeconds s.discordUserId) acc,
        uid ∈ g.2 ∧ g.1 = r
  | [], _, _, _, h => h
  | s :: rest, acc, uid, r, h =>
      foldl_insert_preserve rest _ uid r
        (insertGroup_mem_preserve acc s.refreshRateSeconds s.discordUserId uid r h)

theorem foldl_insert_mem :
    ∀ (l : List DiscordUserBenefits) (acc : List (Nat × List String))
      (b : DiscordUserBenefits), b ∈ l →
      ∃ g ∈ l.foldl
          (fun a s => insertGroup a s.refreshRateSeconds s.discordUserId) acc,
        b.discordUserId ∈ g.2 ∧ g.1 = b.refreshRateSeconds
  | [], _, b, hb => absurd hb (List.not_mem_nil b)
  | s :: rest, acc, b, hb => by
      rcases List.mem_cons.mp hb with rfl | hb'
      · exact foldl_insert_preserve rest _ _ _
          (insertGroup_mem_self acc b.refreshRateSeconds b.discordUserId)
      · exact foldl_insert_mem rest _ b hb'

theorem groupByRefreshRate_mem (l : List DiscordUserBenefits)
    (b : DiscordUserBenefits) (hb : b ∈ l) :
    ∃ g ∈ groupByRefreshRate l, b.discordUserId ∈ g.2 ∧
      g.1 = b.refreshRateSeconds :=
  foldl_insert_mem l [] b hb

/-- The refresh rate a user converges to under `syncRefreshRates`: the rate of
the user's supporter group, or the process-wide default for users in no
group. -/
def entitledRefreshRate (defaultRate : Nat) (benefits : List DiscordUserBenefits)
    (uid : String) : Nat :=
  (lookupGroupRate (groupByRefreshRate (benefits.filter (·.isSupporter)))
    uid).getD defaultRate

theorem finalStep_applyGroups (defaultRate : Nat)
    (groups : List (Nat × List String)) (hnd : (groupIds groups).Nodup)
    (d : UserFeedDoc) :
    (if !(groupIds groups).contains (applyGroupsTo groups d).discordUserId &&
        (applyGroupsTo groups d).refreshRateSeconds != defaultRate
      then { applyGroupsTo groups d with refreshRateSeconds := defaultRate }
      else applyGroupsTo groups d) =
    { d with refreshRateSeconds :=
        (lookupGroupRate groups d.discordUserId).getD defaultRate } := by
  rw [applyGroupsTo_eq groups hnd d]
  cases hlk : lookupGroupRate groups d.discordUserId with
  | some r =>
      have hmem : d.discordUserId ∈ groupIds groups :=
        (lookupGroupRate_isSome_iff groups _).mp (by rw [hlk]; rfl)
      simp [hlk, hmem]
  | none =>
      have hmem : d.discordUserId ∉ groupIds groups := fun hm => by
        have := (lookupGroupRate_isSome_iff groups _).mpr hm
        rw [hlk] at this
        simp at this
      by_cases hr : d.refreshRateSeconds = defaultRate
      · simp [hlk, hmem, hr]
      · simp [hlk, hmem, hr]

theorem syncRefreshRates_counts_length (defaultRate : Nat)
    (benefits : List DiscordUserBenefits) (store : List UserFeedDoc) :
    (syncRefreshRates defaultRate benefits store).2.length =
      (groupByRefreshRate (benefits.filter (·.isSupporter))).length + 1 := by
  simp only [syncRefreshRates, updateManyRefreshRate]
  rw [List.length_append, groupPass_counts_length]
  simp

/-- C6: `syncRefreshRates` is idempotent over the stored assignments. For a
well-formed entitlement snapshot (each subscriber appears at most once among
valid supporters), one run brings every stored feed's `refreshRateSeconds` to
the owner's entitled value — the group rate for supporters, the process-wide
default for users in no group — and a second run with the same snapshot
matches zero documents in every bulk update, leaving the store unchanged. -/
theorem syncRefreshRates_idempotent (defaultRate : Nat)
    (benefits : List DiscordUserBenefits) (store : List UserFeedDoc)
    (hW : ((benefits.filter (·.isSupporter)).map (·.discordUserId)).Nodup) :
    (syncRefreshRates defaultRate benefits store).1 =
      store.map (fun d =>
        { d with refreshRateSeconds :=
            entitledRefreshRate defaultRate benefits d.discordUserId })
    ∧ (∀ b ∈ benefits.filter (·.isSupporter),
        entitledRefreshRate defaultRate benefits b.discordUserId =
          b.refreshRateSeconds)
    ∧ syncRefreshRates defaultRate benefits
        (syncRefreshRates defaultRate benefits store).1 =
      ((syncRefreshRates defaultRate benefits store).1,
        List.replicate (syncRefreshRates defaultRate benefits store).2.length 0) := by
  have hnd : (groupIds (groupByRefreshRate
      (benefits.filter (·.isSupporter)))).Nodup :=
    ((groupIds_perm (benefits.filter (·.isSupporter))).nodup_iff).mpr hW
  have hA : (syncRefreshRates defaultRate benefits store).1 =
      store.map (fun d =>
        { d with refreshRateSeconds :=
            entitledRefreshRate defaultRate benefits d.discordUserId }) := by
    simp only [syncRefreshRates, updateManyRefreshRate]
    rw [groupPass_fst, List.map_map]
    refine List.map_congr_left fun d _ => ?_
    simpa [Function.comp, entitledRefreshRate] using
      finalStep_applyGroups defaultRate _ hnd d
  refine ⟨hA, ?_, ?_⟩
  · intro b hb
    obtain ⟨g, hg, hmem, hrate⟩ := groupByRefreshRate_mem _ b hb
    unfold entitledRefreshRate
    rw [lookupGroupRate_of_mem _ hnd g hg _ hmem, hrate]
    rfl
  · rw [hA]
    have hfalse_group : ∀ g ∈ groupByRefreshRate (benefits.filter (·.isSupporter)),
        ∀ d' ∈ store.map (fun d =>
          { d with refreshRateSeconds :=
              entitledRefreshRate defaultRate benefits d.discordUserId }),
        groupUpdatePred g d' = false := by
      intro g hg d' hd'
      obtain ⟨d, _, rfl⟩ := List.mem_map.mp hd'
      by_cases hc : d.discordUserId ∈ g.2
      · have hlk := lookupGroupRate_of_mem _ hnd g hg _ hc
        simp [groupUpdatePred, hc, entitledRefreshRate, hlk]
      · simp [groupUpdatePred, hc]
    have hfalse_final : ∀ d' ∈ store.map (fun d =>
          { d with refreshRateSeconds :=
              entitledRefreshRate defaultRate benefits d.discordUserId }),
        (!(groupIds (groupByRefreshRate
            (benefits.filter (·.isSupporter)))).contains d'.discordUserId &&
          d'.refreshRateSeconds != defaultRate) = false := by
      intro d' hd'
      obtain ⟨d, _, rfl⟩ := List.mem_map.mp hd'
      by_cases hc : d.discordUserId ∈
          groupIds (groupByRefreshRate (benefits.filter (·.isSupporter)))
      · simp [hc]
      · have hlk : lookupGroupRate
            (groupByRefreshRate (benefits.filter (·.isSupporter)))
            d.discordUserId = none := by
          cases h : lookupGroupRate
              (groupByRefreshRate (benefits.filter (·.isSupporter)))
              d.discordUserId with
          | none => rfl
          | some r =>
              exact absurd ((lookupGroupRate_isSome_iff _ _).mp
                (by rw [h]; rfl)) hc
        simp [hc, entitledRefreshRate, hlk]
    rw [syncRefreshRates_counts_length]
    simp only [syncRefreshRates]
    rw [groupPass_noop _ _ [] hfalse_group]
    rw [updateMany_noop _ _ _ hfalse_final]
    simp [List.replicate_succ']

/-- Concrete entitlement snapshot used to instantiate the idempotence
theorem: one supporter at rate 120 and one non-supporter. -/
def sampleBenefits : List DiscordUserBenefits :=
  [⟨"alice", true, 120, 50⟩, ⟨"bob", false, 300, 10⟩]

/-- Concrete feed store used to instantiate the idempotence theorem. -/
def sampleStore : List UserFeedDoc :=
  [⟨"alice", 600⟩, ⟨"bob", 120⟩, ⟨"carol", 999⟩]

/-- C6 witness: the idempotence theorem instantiated at a concrete snapshot
and store. -/
theorem syncRefreshRates_idempotent_witness :
    ((sampleBenefits.filter (·.isSupporter)).map (·.discordUserId)).Nodup
    ∧ ((syncRefreshRates 600 sampleBenefits sampleStore).1 =
        sampleStore.map (fun d =>
          { d with refreshRateSeconds :=
              entitledRefreshRate 600 sampleBenefits d.discordUserId })
      ∧ (∀ b ∈ sampleBenefits.filter (·.isSupporter),
          entitledRefreshRate 600 sampleBenefits b.discordUserId =
            b.refreshRateSeconds)
      ∧ syncRefreshRates 600 sampleBenefits
          (syncRefreshRates 600 sampleBenefits sampleStore).1 =
        ((syncRefreshRates 600 sampleBenefits sampleStore).1,
          List.replicate
            (syncRefreshRates 600 sampleBenefits sampleStore).2.length 0)) :=
  ⟨by decide, syncRefreshRates_idempotent 600 sampleBenefits sampleStore (by decide)⟩

/-! ## DiscordMediumService (source `deliverArticle` and helpers)

`deliverArticle` renders the article into one or more API payloads and hands
each to the rate-limited producer's `enqueue`. External collaborators
(`replaceTemplateString`, `articleFormatterService.applySplit`, the wall
clock, and the producer) are environment parameters; the embedding returns
the delivery state together with the list of enqueue calls issued. -/

/-- An article: its flattened record (consumed by the external template
collaborator), its flattened `id`, and `raw.date?.toISOString()`. -/
structure Article where
  flattenedId : String
  flattened : List (String × String)
  rawDateISO : Option String
deriving Repr, DecidableEq

/-- `splitOptions` of the delivery settings: its fields are consumed only by
the external `articleFormatterService.applySplit` collaborator, so only its
presence is observed here. -/
def SplitOptions : Type := Unit

/-- Author sub-block of a configured embed. -/
structure EmbedAuthor where
  name : String
  iconUrl : Option String
deriving Repr, DecidableEq

/-- Footer sub-block of a configured embed. -/
structure EmbedFooter where
  text : String
  iconUrl : Option String
deriving Repr, DecidableEq

/-- Image / thumbnail sub-block of a configured embed. -/
structure EmbedImage where
  url : String
deriving Repr, DecidableEq

/-- One field of a configured embed. -/
structure EmbedField where
  name : String
  value : String
  inline : Option Bool
deriving Repr, DecidableEq

/-- A configured embed of the delivery settings. -/
structure DiscordEmbed where
  title : Option String
  description : Option String
  author : Option EmbedAuthor
  color : Option Nat
  footer : Option EmbedFooter
  image : Option EmbedImage
  thumbnail : Option EmbedImage
  url : Option String
  fields : Option (List EmbedField)
  timestamp : Option String
deriving Repr, DecidableEq

/-- Author sub-object of an outbound payload embed. -/
structure PayloadEmbedAuthor where
  name : Option String
  icon_url : Option String
deriving Repr, DecidableEq

/-- Footer sub-object of an outbound payload embed. -/
structure PayloadEmbedFooter where
  text : Option String
  icon_url : Option String
deriving Repr, DecidableEq

/-- Image sub-object of an outbound payload embed. -/
structure PayloadEmbedImage where
  url : Option String
deriving Repr, DecidableEq

/-- Field sub-object of an outbound payload embed. -/
structure PayloadEmbedField where
  name : Option String
  value : Option String
  inline : Option Bool
deriving Repr, DecidableEq

/-- An embed of an outbound `DiscordMessageApiPayload`. -/
structure PayloadEmbed where
  title : Option String
  description : Option String
  author : Option PayloadEmbedAuthor
  color : Option Nat
  footer : Option PayloadEmbedFooter
  image : Option PayloadEmbedImage
  thumbnail : Option PayloadEmbedImage
  url : Option String
  fields : Option (List PayloadEmbedField)
  timestamp : Option String
deriving Repr, DecidableEq

/-- One outbound Discord message payload. -/
structure DiscordMessageApiPayload where
  content : String
  embeds : Option (List PayloadEmbed)
deriving Repr, DecidableEq

/-- Webhook target details `{ id, token, name, iconUrl }`. -/
structure WebhookDetails where
  id : String
  token : String
  name : Option String
  iconUrl : Option String
deriving Repr, DecidableEq

/-- Channel target details `{ id }`. -/
structure ChannelDetails where
  id : String
deriving Repr, DecidableEq

/-- `details.deliverySettings`. -/
structure DeliverySettings where
  guildId : String
  channel : Option ChannelDetails
  webhook : Option WebhookDetails
  embeds : Option (List DiscordEmbed)
  content : Option String
  splitOptions : Option SplitOptions

/-- `details.feedDetails`. -/
structure FeedDetails where
  id : String
  url : String
deriving Repr, DecidableEq

/-- The delivery details handed to `deliverArticle`. -/
structure DeliveryDetails where
  deliveryId : String
  mediumId : String
  deliverySettings : DeliverySettings
  feedDetails : FeedDetails

/-- Delivery states used by `deliverArticle`. -/
inductive ArticleDeliveryStatus where
  | PendingDelivery
  | Failed
deriving Repr, DecidableEq

/-- Error codes used by `deliverArticle`. -/
inductive ArticleDeliveryErrorCode where
  | NoChannelOrWebhook
  | Internal
deriving Repr, DecidableEq

/-- The `ArticleDeliveryState` returned by `deliverArticle`. -/
structure ArticleDeliveryState where
  id : String
  mediumId : String
  status : ArticleDeliveryStatus
  errorCode : Option ArticleDeliveryErrorCode
  internalMessage : Option String
deriving Repr, DecidableEq

/-- Correlation metadata of one `producer.enqueue` call. -/
structure EnqueueMeta where
  id : String
  articleID : String
  feedURL : String
  channel : Option String
  webhookId : Option String
  feedId : String
  guildId : String
  emitDeliveryResult : Bool
deriving Repr, DecidableEq

/-- One `producer.enqueue(apiUrl, { method: POST, body }, metadata)` call. -/
structure EnqueueCall where
  apiUrl : String
  payload : DiscordMessageApiPayload
  meta : EnqueueMeta
deriving Repr, DecidableEq

/-- External collaborators of `DiscordMediumService`. -/
structure MediumEnv where
  /-- `replaceTemplateString(article.flattened, str)`, the external template
  substitution collaborator. -/
  replaceTemplateString : List (String × String) → Option String → Option String
  /-- `articleFormatterService.applySplit(content, {...splitOptions,
  isEnabled: true})`, the external splitting collaborator. -/
  applySplit : String → List String
  /-- `new Date().toISOString()` at format time. -/
  nowISO : String
  /-- the error thrown by `producer.enqueue` during this delivery, if any. -/
  enqueueErr : Option String

/-- `DiscordMediumService.BASE_API_URL`. -/
def BASE_API_URL : String := "https://discord.com/api/v10"

/-- `getChannelApiUrl(channelId)`. -/
def getChannelApiUrl (channelId : String) : String :=
  BASE_API_URL ++ "/channels/" ++ channelId ++ "/messages"

/-- `getWebhookApiUrl(webhookId, webhookToken)`. -/
def getWebhookApiUrl (webhookId webhookToken : String) : String :=
  BASE_API_URL ++ "/webhooks/" ++ webhookId ++ "/" ++ webhookToken

/-- JS `x || null` on an optional string: `undefined` and the empty string
both collapse to `null`. -/
def jsOrNull (o : Option String) : Option String :=
  match o with
  | some s => if s = "" then none else some s
  | none => none

/-- `generateApiPayloads(article, { embeds, content, splitOptions })`: renders
the content (splitting it when split options are present) and maps every
content part to a payload carrying the rendered embeds. -/
def generateApiPayloads (env : MediumEnv) (article : Article)
    (embeds : Option (List DiscordEmbed)) (content : Option String)
    (splitOptions : Option SplitOptions) : List DiscordMessageApiPayload :=
  let firstContent := (env.replaceTemplateString article.flattened content).getD ""
  let payloadContent :=
    match splitOptions with
    | some _ => env.applySplit firstContent
    | none => [firstContent]
  payloadContent.map fun contentPart =>
    { content := contentPart,
      embeds := embeds.map fun es => es.map fun embed =>
        { title := env.replaceTemplateString article.flattened embed.title,
          description :=
            env.replaceTemplateString article.flattened embed.description,
          author :=
            match embed.author with
            | none => none
            | some a =>
                if a.name = "" then none
                else some
                  { name :=
                      env.replaceTemplateString article.flattened (some a.name),
                    icon_url :=
                      jsOrNull (env.replaceTemplateString article.flattened
                        a.iconUrl) },
          color := embed.color,
          footer :=
            match embed.footer with
            | none => none
            | some f =>
                if f.text = "" then none
                else some
                  { text :=
                      env.replaceTemplateString article.flattened (some f.text),
                    icon_url :=
                      jsOrNull (env.replaceTemplateString article.flattened
                        f.iconUrl) },
          image :=
            match embed.image with
            | none => none
            | some im =>
                if im.url = "" then none
                else some
                  { url :=
                      jsOrNull (env.replaceTemplateString article.flattened
                        (some im.url)) },
          thumbnail :=
            match embed.thumbnail with
            | none => none
            | some th =>
                if th.url = "" then none
                else some
                  { url :=
                      jsOrNull (env.replaceTemplateString article.flattened
                        (some th.url)) },
          url := jsOrNull (env.replaceTemplateString article.flattened embed.url),
          fields := embed.fields.map fun fs =>
            (fs.filter fun f => f.name ≠ "" && f.value ≠ "").map fun f =>
              { name :=
                  env.replaceTemplateString article.flattened (some f.name),
                value :=
                  env.replaceTemplateString article.flattened (some f.value),
                inline := f.inline },
          timestamp :=
            if embed.timestamp = some "now" then some env.nowISO
            else if embed.timestamp = some "article" then article.rawDateISO
            else none } }

/-- `deliverArticleToChannel`: one enqueue call per payload, targeting the
channel messages endpoint; resolves `PendingDelivery` unless the producer
throws. -/
def deliverArticleToChannel (env : MediumEnv) (article : Article)
    (channelId : String) (details : DeliveryDetails) :
    Except String ArticleDeliveryState × List EnqueueCall :=
  let bodies := generateApiPayloads env article
    details.deliverySettings.embeds details.deliverySettings.content none
  let calls := bodies.map fun body =>
    { apiUrl := getChannelApiUrl channelId
      payload := body
      meta :=
        { id := details.deliveryId
          articleID := article.flattenedId
          feedURL := details.feedDetails.url
          channel := some channelId
          webhookId := none
          feedId := details.feedDetails.id
          guildId := details.deliverySettings.guildId
          emitDeliveryResult := true } }
  match env.enqueueErr with
  | some msg => (Except.error msg, calls)
  | none =>
      (Except.ok
        { id := details.deliveryId
          mediumId := details.mediumId
          status := ArticleDeliveryStatus.PendingDelivery
          errorCode := none
          internalMessage := none }, calls)

/-- `deliverArticleToWebhook`: one enqueue call per payload, targeting the
webhook endpoint; resolves `PendingDelivery` unless the producer throws. -/
def deliverArticleToWebhook (env : MediumEnv) (article : Article)
    (w : WebhookDetails) (details : DeliveryDetails) :
    Except String ArticleDeliveryState × List EnqueueCall :=
  let bodies := generateApiPayloads env article
    details.deliverySettings.embeds details.deliverySettings.content none
  let calls := bodies.map fun body =>
    { apiUrl := getWebhookApiUrl w.id w.token
      payload := body
      meta :=
        { id := details.deliveryId
          articleID := article.flattenedId
          feedURL := details.feedDetails.url
          channel := none
          webhookId := some w.id
          feedId := details.feedDetails.id
          guildId := details.deliverySettings.guildId
          emitDeliveryResult := true } }
  match env.enqueueErr with
  | some msg => (Except.error msg, calls)
  | none =>
      (Except.ok
        { id := details.deliveryId
          mediumId := details.mediumId
          status := ArticleDeliveryStatus.PendingDelivery
          errorCode := none
          internalMessage := none }, calls)

/-- `DiscordMediumService.deliverArticle` (source lines 809–862): guards on a
missing target, prefers the webhook branch, and converts any thrown error
into a `Failed`/`Internal` state. Returns the state and the enqueue calls
issued. -/
def deliverArticle (env : MediumEnv) (article : Article)
    (details : DeliveryDetails) : ArticleDeliveryState × List EnqueueCall :=
  if details.deliverySettings.channel.isNone &&
      details.deliverySettings.webhook.isNone then
    ({ id := details.deliveryId
       mediumId := details.mediumId
       status := ArticleDeliveryStatus.Failed
       errorCode := some ArticleDeliveryErrorCode.NoChannelOrWebhook
       internalMessage := some "No channel or webhook specified" }, [])
  else
    let attempt : Except String ArticleDeliveryState × List EnqueueCall :=
      match details.deliverySettings.webhook with
      | some w => deliverArticleToWebhook env article w details
      | none =>
          match details.deliverySettings.channel with
          | some c => deliverArticleToChannel env article c.id details
          | none =>
              (Except.error "No channel or webhook specified for Discord medium",
               [])
    match attempt with
    | (Except.ok st, calls) => (st, calls)
    | (Except.error msg, calls) =>
        ({ id := details.deliveryId
           mediumId := details.mediumId
           status := ArticleDeliveryStatus.Failed
           errorCode := some ArticleDeliveryErrorCode.Internal
           internalMessage := some msg }, calls)

/-- C2: when neither a channel nor a webhook is specified, `deliverArticle`
returns a `Failed` state carrying `NoChannelOrWebhook` and the given
`deliveryId` and `mediumId`, and issues no producer enqueue call. -/
theorem deliverArticle_noChannelOrWebhook (env : MediumEnv) (article : Article)
    (details : DeliveryDetails)
    (hc : details.deliverySettings.channel = none)
    (hw : details.deliverySettings.webhook = none) :
    deliverArticle env article details =
      ({ id := details.deliveryId
         mediumId := details.mediumId
         status := ArticleDeliveryStatus.Failed
         errorCode := some ArticleDeliveryErrorCode.NoChannelOrWebhook
         internalMessage := some "No channel or webhook specified" }, []) := by
  simp [deliverArticle, hc, hw]

/-- Concrete environment for the delivery witnesses: identity template
substitution, identity split, and a producer that does not throw. -/
def sampleMediumEnv : MediumEnv :=
  { replaceTemplateString := fun _ o => o
    applySplit := fun s => [s]
    nowISO := "2024-01-01T00:00:00.000Z"
    enqueueErr := none }

/-- Concrete article for the delivery witnesses. -/
def sampleArticle : Article := ⟨"a1", [("title", "hello")], none⟩

/-- Delivery details with neither channel nor webhook. -/
def sampleDetailsNoTarget : DeliveryDetails :=
  { deliveryId := "d1"
    mediumId := "m1"
    deliverySettings :=
      { guildId := "g1"
        channel := none
        webhook := none
        embeds := none
        content := some "hi"
        splitOptions := none }
    feedDetails := ⟨"f1", "https://example.com/feed.xml"⟩ }

/-- C2 witness: the missing-target theorem instantiated at concrete inputs. -/
theorem deliverArticle_noChannelOrWebhook_witness :
    sampleDetailsNoTarget.deliverySettings.channel = none
    ∧ sampleDetailsNoTarget.deliverySettings.webhook = none
    ∧ deliverArticle sampleMediumEnv sampleArticle sampleDetailsNoTarget =
      ({ id := "d1"
         mediumId := "m1"
         status := ArticleDeliveryStatus.Failed
         errorCode := some ArticleDeliveryErrorCode.NoChannelOrWebhook
         internalMessage := some "No channel or webhook specified" }, []) :=
  ⟨rfl, rfl,
    deliverArticle_noChannelOrWebhook sampleMediumEnv sampleArticle
      sampleDetailsNoTarget rfl rfl⟩

/-- C9: when a webhook is specified, `deliverArticle` delivers to the webhook
and never to the channel, regardless of whether a channel is also present:
the enqueue calls are exactly the webhook-endpoint calls, each targeting the
webhook API URL with webhook correlation metadata and no channel. -/
theorem deliverArticle_webhook_precedence (env : MediumEnv) (article : Article)
    (details : DeliveryDetails) (w : WebhookDetails)
    (hw : details.deliverySettings.webhook = some w) :
    (deliverArticle env article details).2 =
      (generateApiPayloads env article details.deliverySettings.embeds
          details.deliverySettings.content none).map (fun body =>
        { apiUrl := getWebhookApiUrl w.id w.token
          payload := body
          meta :=
            { id := details.deliveryId
              articleID := article.flattenedId
              feedURL := details.feedDetails.url
              channel := none
              webhookId := some w.id
              feedId := details.feedDetails.id
              guildId := details.deliverySettings.guildId
              emitDeliveryResult := true } })
    ∧ ∀ c ∈ (deliverArticle env article details).2,
        c.apiUrl = getWebhookApiUrl w.id w.token ∧ c.meta.channel = none := by
  have h1 : (deliverArticle env article details).2 =
      (generateApiPayloads env article details.deliverySettings.embeds
          details.deliverySettings.content none).map (fun body =>
        { apiUrl := getWebhookApiUrl w.id w.token
          payload := body
          meta :=
            { id := details.deliveryId
              articleID := article.flattenedId
              feedURL := details.feedDetails.url
              channel := none
              webhookId := some w.id
              feedId := details.feedDetails.id
              guildId := details.deliverySettings.guildId
              emitDeliveryResult := true } }) := by
    cases henq : env.enqueueErr with
    | some msg => simp [deliverArticle, deliverArticleToWebhook, hw, henq]
    | none => simp [deliverArticle, deliverArticleToWebhook, hw, henq]
  refine ⟨h1, ?_⟩
  intro c hc
  rw [h1] at hc
  obtain ⟨body, _, rfl⟩ := List.mem_map.mp hc
  exact ⟨rfl, rfl⟩

/-- Concrete webhook for the precedence witness. -/
def sampleWebhook : WebhookDetails := ⟨"wh1", "tok1", none, none⟩

/-- Delivery details with both a channel and a webhook present. -/
def sampleDetailsBothTargets : DeliveryDetails :=
  { deliveryId := "d2"
    mediumId := "m2"
    deliverySettings :=
      { guildId := "g1"
        channel := some ⟨"chan1"⟩
        webhook := some sampleWebhook
        embeds := none
        content := some "hi"
        splitOptions := none }
    feedDetails := ⟨"f1", "https://example.com/feed.xml"⟩ }

/-- C9 witness: the precedence theorem instantiated at details carrying both
a channel and a webhook. -/
theorem deliverArticle_webhook_precedence_witness :
    sampleDetailsBothTargets.deliverySettings.webhook = some sampleWebhook
    ∧ ((deliverArticle sampleMediumEnv sampleArticle sampleDetailsBothTargets).2 =
        (generateApiPayloads sampleMediumEnv sampleArticle
            sampleDetailsBothTargets.deliverySettings.embeds
            sampleDetailsBothTargets.deliverySettings.content none).map
          (fun body =>
            { apiUrl := getWebhookApiUrl sampleWebhook.id sampleWebhook.token
              payload := body
              meta :=
                { id := sampleDetailsBothTargets.deliveryId
                  articleID := sampleArticle.flattenedId
                  feedURL := sampleDetailsBothTargets.feedDetails.url
                  channel := none
                  webhookId := some sampleWebhook.id
                  feedId := sampleDetailsBothTargets.feedDetails.id
                  guildId := sampleDetailsBothTargets.deliverySettings.guildId
                  emitDeliveryResult := true } })
      ∧ ∀ c ∈ (deliverArticle sampleMediumEnv sampleArticle
            sampleDetailsBothTargets).2,
          c.apiUrl = getWebhookApiUrl sampleWebhook.id sampleWebhook.token ∧
          c.meta.channel = none) :=
  ⟨rfl, deliverArticle_webhook_precedence sampleMediumEnv sampleArticle
    sampleDetailsBothTargets sampleWebhook rfl⟩

/-! ## FeedFetcherService.fetchAndSaveResponse (source lines 438–631)

One call's interaction with the outside world — the `node-fetch` outcome, the
zlib compression, the object-store upload, the cache-store write, and
`randomUUID()` — is captured in a `FetchEnv`. The embedding returns the
persisted request/response pair, the returned body, the hasher state after
the call, and the list of cache-store / object-store calls issued. The
module-level `sha1 = createHash('sha1')` hasher is threaded explicitly: its
state is the absorbed input; `copy()` duplicates it and `digest` is a pure
executable function of it, as for SHA-1. -/

/-- `RequestStatus` constants. -/
inductive RequestStatus where
  | OK
  | BAD_STATUS_CODE
  | FETCH_ERROR
  | FETCH_TIMEOUT
  | PARSE_ERROR
  | REFUSED_LARGE_FEED
deriving Repr, DecidableEq

/-- State of a `crypto` hasher: the bytes absorbed so far. -/
structure HashState where
  absorbed : List Nat
deriving Repr, DecidableEq

/-- `hasher.copy()`: duplicates the state; the original is left untouched. -/
def hashCopy (h : HashState) : HashState := h

/-- `hasher.update(s)`: absorbs the argument's bytes. -/
def hashUpdate (h : HashState) (s : String) : HashState :=
  ⟨h.absorbed ++ s.toList.map Char.toNat⟩

/-- `hasher.digest('hex')`: a pure executable function of the absorbed bytes
(the concrete SHA-1 mixing is immaterial to the claims; a 32-bit polynomial
accumulator stands in for it). -/
def digestHex (h : HashState) : String :=
  toString (h.absorbed.foldl (fun a c => (a * 31 + c) % 4294967296) 5381)

/-- The module-level `const sha1 = createHash('sha1')`. -/
def sha1 : HashState := ⟨[]⟩

/-- A thrown JS error as the catch blocks distinguish them: the fetcher's own
`FeedTooLargeException`, a `FetchError` of type `request-timeout`, or any
other error. The only `throw new FeedTooLargeException` site in the source
(the 3 MB ceiling) is commented out, so in the source that class is never
constructed; it is kept here so the `instanceof FeedTooLargeException`
guards can be embedded as written. -/
inductive JsError where
  | feedTooLargeException (msg : String)
  | fetchTimeoutError (msg : String)
  | genericError (msg : String)
deriving Repr, DecidableEq

/-- Whether an error is the fetcher's `FeedTooLargeException`. -/
def JsError.isFeedTooLarge : JsError → Bool
  | JsError.feedTooLargeException _ => true
  | _ => false

instance {α β : Type} [DecidableEq α] [DecidableEq β] :
    DecidableEq (Except α β) := fun x y =>
  match x, y with
  | Except.error a, Except.error b => decidable_of_iff (a = b) (by simp)
  | Except.error _, Except.ok _ => isFalse (by simp)
  | Except.ok _, Except.error _ => isFalse (by simp)
  | Except.ok a, Except.ok b => decidable_of_iff (a = b) (by simp)

/-- An HTTP response as `fetchAndSaveResponse` observes it: status code, the
headers it reads, and the outcome of `maybeDecodeResponse` on its body. -/
structure HttpResp where
  statusCode : Nat
  etag : Option String
  lastModified : Option String
  server : Option String
  decodeResult : Except JsError String
deriving Repr, DecidableEq

/-- `res.ok` of `node-fetch`: status in [200, 300). -/
def HttpResp.isOk (r : HttpResp) : Bool :=
  200 ≤ r.statusCode && r.statusCode < 300

/-- Whether the second char list starts with the first. -/
def startsWithChars : List Char → List Char → Bool
  | [], _ => true
  | _ :: _, [] => false
  | a :: as, b :: bs => a = b && startsWithChars as bs

/-- Whether a char list contains the needle as a contiguous run. -/
def containsChars (needle : List Char) : List Char → Bool
  | [] => needle.isEmpty
  | h :: t => startsWithChars needle (h :: t) || containsChars needle t

/-- JS `haystack.includes(needle)`. -/
def stringIncludes (haystack needle : String) : Bool :=
  containsChars needle.toList haystack.toList

/-- `trimHeadersForStorage`: drops entries with falsy values. -/
def trimHeadersForStorage (hs : List (String × String)) :
    List (String × String) :=
  hs.filter fun kv => kv.2 ≠ ""

/-- Environment of one `fetchAndSaveResponse` call. -/
structure FetchEnv where
  /-- outcome of `fetchFeedResponse` (the `node-fetch` call). -/
  fetchResult : Except JsError HttpResp
  /-- error thrown by `deflatePromise`, if any. -/
  deflateErr : Option JsError
  /-- error thrown by `objectFileStorageService.uploadFeedHtmlContent`. -/
  uploadErr : Option JsError
  /-- error thrown by `cacheStorageService.setFeedHtmlContent`. -/
  cacheWriteErr : Option JsError
  /-- the `randomUUID()` value of this call. -/
  uuid : String
  /-- zlib deflate + base64: an external pure encoding. -/
  deflate : String → String

/-- Options of `fetchAndSaveResponse`. -/
structure FetchSaveOptions where
  flushEntities : Bool
  saveResponseToObjectStorage : Bool
  headers : List (String × String)
deriving Repr, DecidableEq

/-- The persisted `Response` entity (fields the method assigns). -/
structure ResponseEntity where
  statusCode : Nat
  etag : Option String
  lastModified : Option String
  s3ObjectKey : Option String
  redisCacheKey : Option String
  textHash : Option String
  isCloudflare : Bool
deriving Repr, DecidableEq

/-- The persisted `Request` entity (fields the method assigns). -/
structure RequestEntity where
  url : String
  status : RequestStatus
  errorMessage : Option String
  fetchOptionsHeaders : List (String × String)
  response : Option ResponseEntity
deriving Repr, DecidableEq

/-- Result of one `fetchAndSaveResponse` call: the value it resolves with,
the writes it issued, what it persisted, and the module hasher afterwards. -/
structure FetchSaveResult where
  request : RequestEntity
  responseText : Option String
  cacheWrites : List (String × String)
  storageWrites : List (String × String)
  persistedResponses : List ResponseEntity
  persistedRequests : List RequestEntity
  flushed : Bool
  hasher : HashState
deriving Repr, DecidableEq

/-- Common tail of the received-response path of `fetchAndSaveResponse`:
builds the `Response` entity (status code, etag / last-modified,
cloudflare flag and the given body-derived fields), links it to the
`Request`, persists both, and resolves. -/
def buildSuccessResult (url : String) (options : FetchSaveOptions)
    (sha1Global : HashState) (res : HttpResp) (status : RequestStatus)
    (text : Option String) (s3Key redisKey textHash : Option String)
    (cacheWrites storageWrites : List (String × String)) : FetchSaveResult :=
  let response : ResponseEntity :=
    { statusCode := res.statusCode
      etag := res.etag
      lastModified := res.lastModified
      s3ObjectKey := s3Key
      redisCacheKey := redisKey
      textHash := textHash
      isCloudflare := stringIncludes (res.server.getD "") "cloudflare" }
  let request : RequestEntity :=
    { url := url
      status := status
      errorMessage := none
      fetchOptionsHeaders := trimHeadersForStorage options.headers
      response := some response }
  { request := request
    responseText := text
    cacheWrites := cacheWrites
    storageWrites := storageWrites
    persistedResponses := [response]
    persistedRequests := [request]
    flushed := options.flushEntities
    hasher := sha1Global }

/-- `FeedFetcherService.fetchAndSaveResponse`. The branches follow the three
nested try/catch blocks of the source: the outer catch maps transport errors
to `FETCH_TIMEOUT` / `FETCH_ERROR`; the middle catch maps a decode failure to
`PARSE_ERROR` (or `REFUSED_LARGE_FEED` for a rethrown
`FeedTooLargeException`); the inner catch swallows compression / cache-write
failures, leaving the HTTP-derived status in place. A 304 Not Modified is
treated as OK with body `""`. Cache-store and object-store calls are recorded
as issued, whether or not the store then throws. -/
def fetchAndSaveResponse (env : FetchEnv) (url : String)
    (options : FetchSaveOptions) (sha1Global : HashState) : FetchSaveResult :=
  match env.fetchResult with
  | Except.error err =>
      let st :=
        match err with
        | JsError.fetchTimeoutError _ => RequestStatus.FETCH_TIMEOUT
        | _ => RequestStatus.FETCH_ERROR
      let msg :=
        match err with
        | JsError.feedTooLargeException m => m
        | JsError.fetchTimeoutError m => m
        | JsError.genericError m => m
      let request : RequestEntity :=
        { url := url
          status := st
          errorMessage := some msg
          fetchOptionsHeaders := trimHeadersForStorage options.headers
          response := none }
      { request := request
        responseText := none
        cacheWrites := []
        storageWrites := []
        persistedResponses := []
        persistedRequests := [request]
        flushed := options.flushEntities
        hasher := sha1Global }
  | Except.ok res =>
      let status0 :=
        if res.isOk || res.statusCode = 304 then RequestStatus.OK
        else RequestStatus.BAD_STATUS_CODE
      match (if res.statusCode = 304 then Except.ok "" else res.decodeResult) with
      | Except.error (JsError.feedTooLargeException _) =>
          buildSuccessResult url options sha1Global res
            RequestStatus.REFUSED_LARGE_FEED none none none none [] []
      | Except.error _ =>
          buildSuccessResult url options sha1Global res
            RequestStatus.PARSE_ERROR none none none none [] []
      | Except.ok text =>
          match env.deflateErr with
          | some (JsError.feedTooLargeException _) =>
              buildSuccessResult url options sha1Global res
                RequestStatus.REFUSED_LARGE_FEED (some text) none none none [] []
          | some _ =>
              buildSuccessResult url options sha1Global res
                status0 (some text) none none none [] []
          | none =>
              let compressed := env.deflate text
              let s3Key :=
                if options.saveResponseToObjectStorage then some env.uuid
                else none
              let storageWrites :=
                if options.saveResponseToObjectStorage then
                  [(env.uuid, compressed)]
                else []
              let redisCacheKey := digestHex (hashUpdate (hashCopy sha1Global) url)
              let textHash :=
                if text ≠ "" then digestHex (hashUpdate (hashCopy sha1Global) text)
                else ""
              let cacheWrites := [(redisCacheKey, compressed)]
              match env.cacheWriteErr with
              | some (JsError.feedTooLargeException _) =>
                  buildSuccessResult url options sha1Global res
                    RequestStatus.REFUSED_LARGE_FEED (some text)
                    s3Key (some redisCacheKey) (some textHash)
                    cacheWrites storageWrites
              | some _ =>
                  buildSuccessResult url options sha1Global res
                    status0 (some text)
                    s3Key (some redisCacheKey) (some textHash)
                    cacheWrites storageWrites
              | none =>
                  buildSuccessResult url options sha1Global res
                    status0 (some text)
                    s3Key (some redisCacheKey) (some textHash)
                    cacheWrites storageWrites

theorem fetchOk_shape (env : FetchEnv) (url : String)
    (options : FetchSaveOptions) (s : HashState) (res : HttpResp)
    (hres : env.fetchResult = Except.ok res) :
    ∃ status text s3Key redisKey textHash cacheWrites storageWrites,
      fetchAndSaveResponse env url options s =
        buildSuccessResult url options s res status text s3Key redisKey
          textHash cacheWrites storageWrites := by
  simp only [fetchAndSaveResponse, hres]
  repeat' split
  all_goals exact ⟨_, _, _, _, _, _, _, rfl⟩

/-- C5: `fetchAndSaveResponse` never propagates an error to its caller: for
every environment it resolves, the returned request is exactly the one
persisted, and a thrown fetch error is mapped to `FETCH_TIMEOUT` (for a
`FetchError` of type `request-timeout`) or `FETCH_ERROR` (any other error),
with the error message recorded on the request. -/
theorem fetchAndSaveResponse_total (env : FetchEnv) (url : String)
    (options : FetchSaveOptions) (s : HashState) :
    (fetchAndSaveResponse env url options s).persistedRequests =
      [(fetchAndSaveResponse env url options s).request]
    ∧ (match env.fetchResult with
       | Except.error (JsError.fetchTimeoutError m) =>
           (fetchAndSaveResponse env url options s).request.status =
             RequestStatus.FETCH_TIMEOUT
           ∧ (fetchAndSaveResponse env url options s).request.errorMessage =
             some m
       | Except.error (JsError.genericError m) =>
           (fetchAndSaveResponse env url options s).request.status =
             RequestStatus.FETCH_ERROR
           ∧ (fetchAndSaveResponse env url options s).request.errorMessage =
             some m
       | Except.error (JsError.feedTooLargeException m) =>
           (fetchAndSaveResponse env url options s).request.status =
             RequestStatus.FETCH_ERROR
           ∧ (fetchAndSaveResponse env url options s).request.errorMessage =
             some m
       | Except.ok _ => True) := by
  constructor
  · cases hf : env.fetchResult with
    | error err => cases err <;> simp [fetchAndSaveResponse, hf]
    | ok res =>
        obtain ⟨st, tx, s3, rk, th, cw, sw, hsh⟩ :=
          fetchOk_shape env url options s res hf
        rw [hsh]
        rfl
  · cases hf : env.fetchResult with
    | error err => cases err <;> simp [fetchAndSaveResponse, hf]
    | ok res => trivial

/-- A 304 Not Modified response. -/
def res304 : HttpResp :=
  { statusCode := 304
    etag := some "W/\x22abc\x22"
    lastModified := none
    server := none
    decodeResult := Except.ok "unused" }

/-- Environment of a 304 fetch whose external effects all succeed. -/
def env304 : FetchEnv :=
  { fetchResult := Except.ok res304
    deflateErr := none
    uploadErr := none
    cacheWriteErr := none
    uuid := "uuid-304"
    deflate := fun s => "deflated:" ++ s }

/-- C3 counterexample: a 304 fetch does persist status OK with decoded body
`""`, but the call writes the compressed empty body to the cache store — the
cache write is not skipped. -/
theorem fetch304_cacheWrite_counterexample :
    (fetchAndSaveResponse env304 "https://example.com/feed.xml"
      ⟨false, false, []⟩ sha1).request.status = RequestStatus.OK
    ∧ (fetchAndSaveResponse env304 "https://example.com/feed.xml"
        ⟨false, false, []⟩ sha1).responseText = some ""
    ∧ (fetchAndSaveResponse env304 "https://example.com/feed.xml"
        ⟨false, false, []⟩ sha1).cacheWrites ≠ [] := by
  refine ⟨rfl, rfl, ?_⟩
  decide

/-- C3 (amended): a fetch whose HTTP response is 304 Not Modified persists a
request with status OK and decoded body `""`; it writes the compressed empty
body to the cache store under the URL-derived cache key, and writes to
durable object storage exactly when `saveResponseToObjectStorage` was
requested. -/
theorem fetch304_persists_ok (env : FetchEnv) (url : String)
    (options : FetchSaveOptions) (s : HashState) (res : HttpResp)
    (hres : env.fetchResult = Except.ok res)
    (h304 : res.statusCode = 304)
    (hdef : env.deflateErr = none)
    (hcw : env.cacheWriteErr = none) :
    (fetchAndSaveResponse env url options s).request.status = RequestStatus.OK
    ∧ (fetchAndSaveResponse env url options s).responseText = some ""
    ∧ (fetchAndSaveResponse env url options s).cacheWrites =
        [(digestHex (hashUpdate (hashCopy s) url), env.deflate "")]
    ∧ (fetchAndSaveResponse env url options s).storageWrites =
        (if options.saveResponseToObjectStorage then
          [(env.uuid, env.deflate "")] else [])
    ∧ (fetchAndSaveResponse env url options s).persistedRequests =
        [(fetchAndSaveResponse env url options s).request] := by
  simp [fetchAndSaveResponse, buildSuccessResult, hres, h304, hdef, hcw]

/-- C3 witness: the amended theorem instantiated at the 304 environment with
durable storage requested. -/
theorem fetch304_persists_ok_witness :
    (env304.fetchResult = Except.ok res304 ∧ res304.statusCode = 304
      ∧ env304.deflateErr = none ∧ env304.cacheWriteErr = none)
    ∧ ((fetchAndSaveResponse env304 "https://example.com/feed.xml"
          ⟨false, true, []⟩ sha1).request.status = RequestStatus.OK
      ∧ (fetchAndSaveResponse env304 "https://example.com/feed.xml"
          ⟨false, true, []⟩ sha1).responseText = some ""
      ∧ (fetchAndSaveResponse env304 "https://example.com/feed.xml"
          ⟨false, true, []⟩ sha1).cacheWrites =
          [(digestHex (hashUpdate (hashCopy sha1) "https://example.com/feed.xml"),
            env304.deflate "")]
      ∧ (fetchAndSaveResponse env304 "https://example.com/feed.xml"
          ⟨false, true, []⟩ sha1).storageWrites =
          (if (⟨false, true, []⟩ : FetchSaveOptions).saveResponseToObjectStorage
            then [(env304.uuid, env304.deflate "")] else [])
      ∧ (fetchAndSaveResponse env304 "https://example.com/feed.xml"
          ⟨false, true, []⟩ sha1).persistedRequests =
          [(fetchAndSaveResponse env304 "https://example.com/feed.xml"
            ⟨false, true, []⟩ sha1).request]) :=
  ⟨⟨rfl, rfl, rfl, rfl⟩,
    fetch304_persists_ok env304 "https://example.com/feed.xml"
      ⟨false, true, []⟩ sha1 res304 rfl rfl rfl rfl⟩

/-- C4: the 3 MB ceiling is commented out in the source, so it is never
enforced: for every received response whose body decodes — of any size,
including above 3 MB — and whose compression and cache write do not throw
the nowhere-constructed `FeedTooLargeException`, the persisted status is the
plain HTTP-derived one, never `REFUSED_LARGE_FEED`, and the body is still
written to the cache store. -/
theorem refusedLargeFeed_unreachable (env : FetchEnv) (url : String)
    (options : FetchSaveOptions) (s : HashState) (res : HttpResp)
    (text : String)
    (hres : env.fetchResult = Except.ok res)
    (hdec : res.decodeResult = Except.ok text)
    (hdef : env.deflateErr = none)
    (hcw : env.cacheWriteErr = none) :
    (fetchAndSaveResponse env url options s).request.status =
      (if res.isOk || res.statusCode = 304 then RequestStatus.OK
        else RequestStatus.BAD_STATUS_CODE)
    ∧ (fetchAndSaveResponse env url options s).request.status ≠
        RequestStatus.REFUSED_LARGE_FEED
    ∧ (fetchAndSaveResponse env url options s).cacheWrites ≠ [] := by
  by_cases h304 : res.statusCode = 304 <;>
    by_cases hok : res.isOk <;>
      simp [fetchAndSaveResponse, buildSuccessResult, hres, hdec, hdef, hcw,
        h304, hok]

/-- A 200 response whose (arbitrarily large) body decodes successfully. -/
def resLarge : HttpResp :=
  { statusCode := 200
    etag := none
    lastModified := none
    server := some "cloudflare"
    decodeResult := Except.ok "oversized-body-stands-in-for-3MB" }

/-- Environment of a fetch of `resLarge` whose effects all succeed. -/
def envLarge : FetchEnv :=
  { fetchResult := Except.ok resLarge
    deflateErr := none
    uploadErr := none
    cacheWriteErr := none
    uuid := "uuid-large"
    deflate := fun s => s }

/-- C4 witness: the unreachability theorem instantiated at a concrete
successful fetch. -/
theorem refusedLargeFeed_unreachable_witness :
    (envLarge.fetchResult = Except.ok resLarge
      ∧ resLarge.decodeResult = Except.ok "oversized-body-stands-in-for-3MB"
      ∧ envLarge.deflateErr = none ∧ envLarge.cacheWriteErr = none)
    ∧ ((fetchAndSaveResponse envLarge "https://example.com/feed.xml"
          ⟨false, false, []⟩ sha1).request.status =
        (if resLarge.isOk || resLarge.statusCode = 304 then RequestStatus.OK
          else RequestStatus.BAD_STATUS_CODE)
      ∧ (fetchAndSaveResponse envLarge "https://example.com/feed.xml"
          ⟨false, false, []⟩ sha1).request.status ≠
          RequestStatus.REFUSED_LARGE_FEED
      ∧ (fetchAndSaveResponse envLarge "https://example.com/feed.xml"
          ⟨false, false, []⟩ sha1).cacheWrites ≠ []) :=
  ⟨⟨rfl, rfl, rfl, rfl⟩,
    refusedLargeFeed_unreachable envLarge "https://example.com/feed.xml"
      ⟨false, false, []⟩ sha1 resLarge "oversized-body-stands-in-for-3MB"
      rfl rfl rfl rfl⟩

/-- C10: a failure thrown while compressing the body or writing it to the
cache store (any error other than the nowhere-constructed
`FeedTooLargeException`) is caught inside `fetchAndSaveResponse`: the
request's status is left at its HTTP-derived value (OK or BAD_STATUS_CODE),
the request/response pair is still persisted, and the call still resolves
with the decoded body. -/
theorem cacheWriteFailure_not_fatal (env : FetchEnv) (url : String)
    (options : FetchSaveOptions) (s : HashState) (res : HttpResp)
    (e : JsError)
    (hres : env.fetchResult = Except.ok res)
    (hdec : res.statusCode = 304 ∨ ∃ t, res.decodeResult = Except.ok t)
    (herr : env.deflateErr = some e ∨
      (env.deflateErr = none ∧ env.cacheWriteErr = some e))
    (hne : e.isFeedTooLarge = false) :
    (fetchAndSaveResponse env url options s).request.status =
      (if res.isOk || res.statusCode = 304 then RequestStatus.OK
        else RequestStatus.BAD_STATUS_CODE)
    ∧ (fetchAndSaveResponse env url options s).persistedRequests =
        [(fetchAndSaveResponse env url options s).request]
    ∧ (fetchAndSaveResponse env url options s).request.response.isSome
    ∧ (fetchAndSaveResponse env url options s).persistedResponses.length = 1
    ∧ (fetchAndSaveResponse env url options s).responseText.isSome := by
  rcases herr with hd | ⟨hd, hc⟩ <;>
    cases e <;> simp [JsError.isFeedTooLarge] at hne <;>
      by_cases h304b : res.statusCode = 304
  all_goals
    rcases hdec with h304 | ⟨t, ht⟩ <;>
      simp_all [fetchAndSaveResponse, buildSuccessResult]

/-- A 200 response with a decodable body, used for the cache-failure witness. -/
def resCacheFail : HttpResp :=
  { statusCode := 200
    etag := none
    lastModified := none
    server := none
    decodeResult := Except.ok "body" }

/-- Environment in which the cache-store write throws a generic error. -/
def envCacheFail : FetchEnv :=
  { fetchResult := Except.ok resCacheFail
    deflateErr := none
    uploadErr := none
    cacheWriteErr := some (JsError.genericError "redis down")
    uuid := "u-cf"
    deflate := fun s => s }

/-- C10 witness: the non-fatality theorem instantiated at a fetch whose cache
write throws. -/
theorem cacheWriteFailure_not_fatal_witness :
    (envCacheFail.fetchResult = Except.ok resCacheFail
      ∧ (resCacheFail.statusCode = 304 ∨
          ∃ t, resCacheFail.decodeResult = Except.ok t)
      ∧ (envCacheFail.deflateErr = some (JsError.genericError "redis down") ∨
          (envCacheFail.deflateErr = none ∧
            envCacheFail.cacheWriteErr = some (JsError.genericError "redis down")))
      ∧ (JsError.genericError "redis down").isFeedTooLarge = false)
    ∧ ((fetchAndSaveResponse envCacheFail "https://example.com/feed.xml"
          ⟨false, false, []⟩ sha1).request.status =
        (if resCacheFail.isOk || resCacheFail.statusCode = 304 then
          RequestStatus.OK else RequestStatus.BAD_STATUS_CODE)
      ∧ (fetchAndSaveResponse envCacheFail "https://example.com/feed.xml"
          ⟨false, false, []⟩ sha1).persistedRequests =
          [(fetchAndSaveResponse envCacheFail "https://example.com/feed.xml"
            ⟨false, false, []⟩ sha1).request]
      ∧ (fetchAndSaveResponse envCacheFail "https://example.com/feed.xml"
          ⟨false, false, []⟩ sha1).request.response.isSome
      ∧ (fetchAndSaveResponse envCacheFail "https://example.com/feed.xml"
          ⟨false, false, []⟩ sha1).persistedResponses.length = 1
      ∧ (fetchAndSaveResponse envCacheFail "https://example.com/feed.xml"
          ⟨false, false, []⟩ sha1).responseText.isSome) :=
  ⟨⟨rfl, Or.inr ⟨"body", rfl⟩, Or.inr ⟨rfl, rfl⟩, rfl⟩,
    cacheWriteFailure_not_fatal envCacheFail "https://example.com/feed.xml"
      ⟨false, false, []⟩ sha1 resCacheFail (JsError.genericError "redis down")
      rfl (Or.inr ⟨"body", rfl⟩) (Or.inr ⟨rfl, rfl⟩) rfl⟩

theorem fetch_hasher_unchanged (env : FetchEnv) (url : String)
    (options : FetchSaveOptions) (s : HashState) :
    (fetchAndSaveResponse env url options s).hasher = s := by
  cases hf : env.fetchResult with
  | error err => simp [fetchAndSaveResponse, hf]
  | ok res =>
      obtain ⟨st, tx, s3, rk, th, cw, sw, hsh⟩ :=
        fetchOk_shape env url options s res hf
      rw [hsh]
      rfl

theorem fetch_cacheKey_determined (env : FetchEnv) (url : String)
    (options : FetchSaveOptions) (s : HashState) :
    ∀ resp ∈ (fetchAndSaveResponse env url options s).persistedResponses,
      resp.redisCacheKey = none ∨
      resp.redisCacheKey = some (digestHex (hashUpdate (hashCopy s) url)) := by
  cases hf : env.fetchResult with
  | error err => simp [fetchAndSaveResponse, hf]
  | ok res =>
      simp only [fetchAndSaveResponse, hf]
      repeat' split
      all_goals simp [buildSuccessResult]

theorem fetch_textHash_determined (env : FetchEnv) (url : String)
    (options : FetchSaveOptions) (s : HashState) :
    ∀ resp ∈ (fetchAndSaveResponse env url options s).persistedResponses,
      resp.textHash = none ∨
      ∃ t, (fetchAndSaveResponse env url options s).responseText = some t ∧
        resp.textHash =
          some (if t ≠ "" then digestHex (hashUpdate (hashCopy s) t) else "") := by
  cases hf : env.fetchResult with
  | error err => simp [fetchAndSaveResponse, hf]
  | ok res =>
      simp only [fetchAndSaveResponse, hf]
      repeat' split
      all_goals
        simp only [buildSuccessResult, List.mem_singleton, forall_eq]
      all_goals
        first
        | exact Or.inl trivial
        | exact Or.inl rfl
        | exact Or.inr ⟨_, rfl, rfl⟩
        | exact Or.inr ⟨_, rfl, by simp_all⟩

/-- C7: the cache key is a deterministic pure function of the URL alone. The
module-level hasher is never mutated by a call (only copies are updated), so
any two `fetchAndSaveResponse` calls for the same URL — whatever their
options, fetch outcomes, or interleaving — produce responses whose
`redisCacheKey`, whenever set, is the same digest of the URL; and whenever
both calls resolve with the same decoded content, their recorded `textHash`
values agree. -/
theorem cacheKey_pure_function (env₁ env₂ : FetchEnv) (url : String)
    (o₁ o₂ : FetchSaveOptions) (s : HashState)
    (resp₁ resp₂ : ResponseEntity) (k₁ k₂ : String)
    (h₁ : resp₁ ∈ (fetchAndSaveResponse env₁ url o₁ s).persistedResponses)
    (h₂ : resp₂ ∈ (fetchAndSaveResponse env₂ url o₂ s).persistedResponses)
    (hk₁ : resp₁.redisCacheKey = some k₁)
    (hk₂ : resp₂.redisCacheKey = some k₂) :
    (fetchAndSaveResponse env₁ url o₁ s).hasher = s
    ∧ (fetchAndSaveResponse env₂ url o₂ s).hasher = s
    ∧ k₁ = digestHex (hashUpdate (hashCopy s) url)
    ∧ k₁ = k₂
    ∧ (∀ t th₁ th₂,
        (fetchAndSaveResponse env₁ url o₁ s).responseText = some t →
        (fetchAndSaveResponse env₂ url o₂ s).responseText = some t →
        resp₁.textHash = some th₁ → resp₂.textHash = some th₂ →
        th₁ = th₂) := by
  have hkd₁ := fetch_cacheKey_determined env₁ url o₁ s resp₁ h₁
  have hkd₂ := fetch_cacheKey_determined env₂ url o₂ s resp₂ h₂
  rcases hkd₁ with hn | hsome₁
  · rw [hn] at hk₁; cases hk₁
  rcases hkd₂ with hn | hsome₂
  · rw [hn] at hk₂; cases hk₂
  rw [hsome₁] at hk₁
  rw [hsome₂] at hk₂
  refine ⟨fetch_hasher_unchanged env₁ url o₁ s,
    fetch_hasher_unchanged env₂ url o₂ s,
    (Option.some.injEq _ _).mp hk₁.symm,
    ((Option.some.injEq _ _).mp hk₁.symm).trans
      ((Option.some.injEq _ _).mp hk₂.symm).symm, ?_⟩
  intro t th₁ th₂ ht₁ ht₂ hh₁ hh₂
  have htd₁ := fetch_textHash_determined env₁ url o₁ s resp₁ h₁
  have htd₂ := fetch_textHash_determined env₂ url o₂ s resp₂ h₂
  rcases htd₁ with hn | ⟨t₁, hrt₁, hth₁⟩
  · rw [hn] at hh₁; cases hh₁
  rcases htd₂ with hn | ⟨t₂, hrt₂, hth₂⟩
  · rw [hn] at hh₂; cases hh₂
  rw [ht₁] at hrt₁
  rw [ht₂] at hrt₂
  obtain rfl : t = t₁ := (Option.some.injEq _ _).mp hrt₁
  obtain rfl : t = t₂ := (Option.some.injEq _ _).mp hrt₂
  rw [hth₁] at hh₁
  rw [hth₂] at hh₂
  have e₁ := (Option.some.injEq _ _).mp hh₁.symm
  have e₂ := (Option.some.injEq _ _).mp hh₂.symm
  rw [e₁, e₂]

/-- First fetch environment of the determinism witness. -/
def envFetchA : FetchEnv :=
  { fetchResult := Except.ok
      { statusCode := 200
        etag := none
        lastModified := none
        server := none
        decodeResult := Except.ok "content-v1" }
    deflateErr := none
    uploadErr := none
    cacheWriteErr := none
    uuid := "uuid-A"
    deflate := fun s => s }

/-- Second fetch environment of the determinism witness: different headers,
uuid, and a later interleaving, same URL and unchanged content. -/
def envFetchB : FetchEnv :=
  { fetchResult := Except.ok
      { statusCode := 200
        etag := some "tag-b"
        lastModified := some "yesterday"
        server := some "cloudflare"
        decodeResult := Except.ok "content-v1" }
    deflateErr := none
    uploadErr := none
    cacheWriteErr := none
    uuid := "uuid-B"
    deflate := fun s => s }

/-- The response persisted by the first witness fetch. -/
def respFetchA : ResponseEntity :=
  (fetchAndSaveResponse envFetchA "https://example.com/feed.xml"
    ⟨false, false, []⟩ sha1).persistedResponses.getD 0
    ⟨0, none, none, none, none, none, false⟩

/-- The response persisted by the second witness fetch. -/
def respFetchB : ResponseEntity :=
  (fetchAndSaveResponse envFetchB "https://example.com/feed.xml"
    ⟨true, true, [("if-none-match", "tag-a")]⟩ sha1).persistedResponses.getD 0
    ⟨0, none, none, none, none, none, false⟩

/-- C7 witness: two concrete fetches of the same URL with different options
and interleavings share the cache key. -/
theorem cacheKey_pure_function_witness :
    (respFetchA ∈ (fetchAndSaveResponse envFetchA "https://example.com/feed.xml"
        ⟨false, false, []⟩ sha1).persistedResponses
      ∧ respFetchB ∈ (fetchAndSaveResponse envFetchB "https://example.com/feed.xml"
        ⟨true, true, [("if-none-match", "tag-a")]⟩ sha1).persistedResponses
      ∧ respFetchA.redisCacheKey =
          some (digestHex (hashUpdate (hashCopy sha1) "https://example.com/feed.xml"))
      ∧ respFetchB.redisCacheKey =
          some (digestHex (hashUpdate (hashCopy sha1) "https://example.com/feed.xml")))
    ∧ ((fetchAndSaveResponse envFetchA "https://example.com/feed.xml"
          ⟨false, false, []⟩ sha1).hasher = sha1
      ∧ (fetchAndSaveResponse envFetchB "https://example.com/feed.xml"
          ⟨true, true, [("if-none-match", "tag-a")]⟩ sha1).hasher = sha1
      ∧ digestHex (hashUpdate (hashCopy sha1) "https://example.com/feed.xml") =
          digestHex (hashUpdate (hashCopy sha1) "https://example.com/feed.xml")
      ∧ digestHex (hashUpdate (hashCopy sha1) "https://example.com/feed.xml") =
          digestHex (hashUpdate (hashCopy sha1) "https://example.com/feed.xml")
      ∧ (∀ t th₁ th₂,
          (fetchAndSaveResponse envFetchA "https://example.com/feed.xml"
            ⟨false, false, []⟩ sha1).responseText = some t →
          (fetchAndSaveResponse envFetchB "https://example.com/feed.xml"
            ⟨true, true, [("if-none-match", "tag-a")]⟩ sha1).responseText = some t →
          respFetchA.textHash = some th₁ → respFetchB.textHash = some th₂ →
          th₁ = th₂)) :=
  ⟨⟨by decide, by decide, by decide, by decide⟩,
    cacheKey_pure_function envFetchA envFetchB "https://example.com/feed.xml"
      ⟨false, false, []⟩ ⟨true, true, [("if-none-match", "tag-a")]⟩ sha1
      respFetchA respFetchB _ _ (by decide) (by decide) (by decide) (by decide)⟩
